import Mathlib

/-!
Shallow embedding of `gst/gstpromise.c` (GstPromise, a one-shot cross-thread
future).  The C object is a record protected by a single mutex; every public
operation is a bounded critical section, so we model each operation as a pure
function on the promise state.  Pointers to `GstStructure` payloads, change
callbacks and destroy-notify functions are modelled by their identity as
natural numbers (`Option Nat`, `none` = NULL).

Each operation additionally returns the ordered list of observable events it
performs (lock/unlock, state store, condition-variable broadcast, change
callback invocation, `gst_structure_free` calls, `g_return_*_fail` diagnostics,
destroy-notify invocations), mirroring the statement order of the C source.
-/

/-- The `GstPromiseResult` enum from `gstpromise.h`. -/
inductive GstPromiseResult
  | pending
  | interrupted
  | replied
  | expired
  deriving DecidableEq, Repr

/-- The mutable fields of `GstPromiseImpl` from `gstpromise.c` (the mutex and
condition variable are represented by the events below; the mini-object header
carries no promise logic).  `reply` is the stored `GstStructure *`,
`change_func`/`user_data`/`notify` are the installed change-handler triple. -/
structure GstPromise where
  result : GstPromiseResult
  reply : Option Nat
  change_func : Option Nat
  user_data : Nat
  notify : Option Nat
  deriving DecidableEq, Repr

/-- Observable actions performed by an operation, in source order. -/
inductive Event
  | lock
  | unlock
  | setResult (r : GstPromiseResult)
  | storeReply
  | broadcast
  | invokeHandler
  | freeStructure (s : Nat)
  | warnReturn
  | swapHandler
  | invokeNotify (n : Nat) (d : Nat)
  deriving DecidableEq, Repr

/-- Number of change-callback invocations in an event trace. -/
def handlerCallsOf (es : List Event) : Nat :=
  es.count Event.invokeHandler

/-- The `GstStructure *` values released via `gst_structure_free`, in order. -/
def freedOf (es : List Event) : List Nat :=
  es.filterMap fun e =>
    match e with
    | Event.freeStructure s => some s
    | _ => none

/-- Whether a `g_return_if_fail` / `g_return_val_if_fail` diagnostic fired. -/
def warnedOf (es : List Event) : Bool :=
  decide (Event.warnReturn ∈ es)

/-- The destroy-notify invocations `(notify, data)` in an event trace. -/
def notifyCallsOf (es : List Event) : List (Nat × Nat) :=
  es.filterMap fun e =>
    match e with
    | Event.invokeNotify n d => some (n, d)
    | _ => none

/-- `gst_promise_init` / `gst_promise_new`: `g_new0` zeroes every field, then
init stores `reply = NULL` and `result = GST_PROMISE_RESULT_PENDING`. -/
def gst_promise_new : GstPromise :=
  { result := GstPromiseResult.pending
    reply := none
    change_func := none
    user_data := 0
    notify := none }

/-- `gst_promise_reply (promise, s)`, lines 158-196 of `gstpromise.c`.
A NULL promise returns at once (the payload is not touched).  Otherwise:
lock; if the result is neither PENDING nor INTERRUPTED, unlock and bail out
through `g_return_if_fail` (a diagnostic, the payload is not touched); free a
stored reply that differs from `s`; if PENDING, store REPLIED and `s` and
invoke the change callback; else free `s`; broadcast; unlock. -/
def gst_promise_reply (promise : Option GstPromise) (s : Option Nat) :
    Option GstPromise × List Event :=
  match promise with
  | none => (none, [])
  | some p =>
    if p.result ≠ GstPromiseResult.pending ∧
        p.result ≠ GstPromiseResult.interrupted then
      (some p, [Event.lock, Event.unlock, Event.warnReturn])
    else
      let freeOld : List Event :=
        match p.reply with
        | some r => if s = some r then [] else [Event.freeStructure r]
        | none => []
      if p.result = GstPromiseResult.pending then
        (some { p with result := GstPromiseResult.replied, reply := s },
         [Event.lock] ++ freeOld ++
           [Event.setResult GstPromiseResult.replied, Event.storeReply] ++
           (if p.change_func.isSome then [Event.invokeHandler] else []) ++
           [Event.broadcast, Event.unlock])
      else
        (some p,
         [Event.lock] ++ freeOld ++
           (match s with
            | some x => [Event.freeStructure x]
            | none => []) ++
           [Event.broadcast, Event.unlock])

/-- `gst_promise_interrupt (promise)`, lines 231-254.  A NULL promise trips
`g_return_if_fail`.  Otherwise: lock; if the result is neither PENDING nor
REPLIED, unlock and bail out through `g_return_if_fail`; if PENDING, store
INTERRUPTED, broadcast, then invoke the change callback; unlock. -/
def gst_promise_interrupt (promise : Option GstPromise) :
    Option GstPromise × List Event :=
  match promise with
  | none => (none, [Event.warnReturn])
  | some p =>
    if p.result ≠ GstPromiseResult.pending ∧
        p.result ≠ GstPromiseResult.replied then
      (some p, [Event.lock, Event.unlock, Event.warnReturn])
    else if p.result = GstPromiseResult.pending then
      (some { p with result := GstPromiseResult.interrupted },
       [Event.lock, Event.setResult GstPromiseResult.interrupted,
         Event.broadcast] ++
         (if p.change_func.isSome then [Event.invokeHandler] else []) ++
         [Event.unlock])
    else
      (some p, [Event.lock, Event.unlock])

/-- `gst_promise_expire (promise)`, lines 263-278.  A NULL promise trips
`g_return_if_fail`.  Otherwise: lock; only if the result is PENDING, store
EXPIRED, broadcast, then invoke the change callback; unlock. -/
def gst_promise_expire (promise : Option GstPromise) :
    Option GstPromise × List Event :=
  match promise with
  | none => (none, [Event.warnReturn])
  | some p =>
    if p.result = GstPromiseResult.pending then
      (some { p with result := GstPromiseResult.expired },
       [Event.lock, Event.setResult GstPromiseResult.expired,
         Event.broadcast] ++
         (if p.change_func.isSome then [Event.invokeHandler] else []) ++
         [Event.unlock])
    else
      (some p, [Event.lock, Event.unlock])

/-- `gst_promise_wait (promise)`, lines 128-148.  A NULL promise returns
EXPIRED through `g_return_val_if_fail`.  The loop blocks on the condition
variable while the result is PENDING; in this single-threaded model no other
thread can change the state, so a PENDING promise blocks forever (`none`);
otherwise the current result is returned at once. -/
def gst_promise_wait (promise : Option GstPromise) : Option GstPromiseResult :=
  match promise with
  | none => some GstPromiseResult.expired
  | some p =>
    if p.result = GstPromiseResult.pending then none
    else some p.result

/-- `gst_promise_get_result (promise)`, lines 289-295: an unlocked read of the
result field; NULL yields EXPIRED through `g_return_val_if_fail`. -/
def gst_promise_get_result (promise : Option GstPromise) : GstPromiseResult :=
  match promise with
  | none => GstPromiseResult.expired
  | some p => p.result

/-- `gst_promise_get_reply (promise)`, lines 207-222: NULL yields NULL through
`g_return_val_if_fail`; a promise whose result is not REPLIED yields NULL
through `g_return_val_if_fail`; otherwise the stored reply. -/
def gst_promise_get_reply (promise : Option GstPromise) : Option Nat :=
  match promise with
  | none => none
  | some p =>
    if p.result ≠ GstPromiseResult.replied then none
    else p.reply

/-- `gst_promise_set_change_callback (promise, func, user_data, notify)`,
lines 95-116.  A NULL promise trips `g_return_if_fail`.  Otherwise: lock;
remember the previous notify/data pair; store the new triple; unlock; then
invoke the previous notify on the previous data if it was non-NULL. -/
def gst_promise_set_change_callback (promise : Option GstPromise)
    (func : Option Nat) (user_data : Nat) (notify : Option Nat) :
    Option GstPromise × List Event :=
  match promise with
  | none => (none, [Event.warnReturn])
  | some p =>
    (some { p with
        change_func := func
        user_data := user_data
        notify := notify },
     [Event.lock, Event.swapHandler, Event.unlock] ++
       (match p.notify with
        | some n => [Event.invokeNotify n p.user_data]
        | none => []))

/-- A producer-side transition call. -/
inductive Op
  | reply (s : Option Nat)
  | interrupt
  | expire
  deriving DecidableEq, Repr

/-- Dispatch one transition call. -/
def step (p : Option GstPromise) : Op → Option GstPromise × List Event
  | Op.reply s => gst_promise_reply p s
  | Op.interrupt => gst_promise_interrupt p
  | Op.expire => gst_promise_expire p

/-- Run a sequence of transition calls, returning the final promise state. -/
def runOps (p : Option GstPromise) : List Op → Option GstPromise
  | [] => p
  | o :: rest => runOps (step p o).1 rest

/-- Run a sequence of transition calls, concatenating their event traces. -/
def runTrace (p : Option GstPromise) : List Op → List Event
  | [] => []
  | o :: rest => (step p o).2 ++ runTrace (step p o).1 rest

/-- The terminal result a transition call establishes when it wins from
PENDING. -/
def winner : Op → GstPromiseResult
  | Op.reply _ => GstPromiseResult.replied
  | Op.interrupt => GstPromiseResult.interrupted
  | Op.expire => GstPromiseResult.expired

theorem winner_ne_pending (o : Op) : winner o ≠ GstPromiseResult.pending := by
  cases o <;> simp [winner]

theorem reply_nonpending (p : GstPromise) (s : Option Nat)
    (h : p.result ≠ GstPromiseResult.pending) :
    (gst_promise_reply (some p) s).1 = some p ∧
    Event.invokeHandler ∉ (gst_promise_reply (some p) s).2 := by
  rcases hr : p.result with _ | _ | _ | _
  · exact absurd hr h
  · rcases hrep : p.reply with _ | r <;>
      simp [gst_promise_reply, hr, hrep] <;>
      split <;> simp
  · simp [gst_promise_reply, hr]
  · simp [gst_promise_reply, hr]

theorem interrupt_nonpending (p : GstPromise)
    (h : p.result ≠ GstPromiseResult.pending) :
    (gst_promise_interrupt (some p)).1 = some p ∧
    Event.invokeHandler ∉ (gst_promise_interrupt (some p)).2 := by
  rcases hr : p.result with _ | _ | _ | _
  · exact absurd hr h
  · simp [gst_promise_interrupt, hr]
  · simp [gst_promise_interrupt, hr]
  · simp [gst_promise_interrupt, hr]

theorem expire_nonpending (p : GstPromise)
    (h : p.result ≠ GstPromiseResult.pending) :
    gst_promise_expire (some p) = (some p, [Event.lock, Event.unlock]) := by
  simp only [gst_promise_expire]
  rw [if_neg h]

theorem step_terminal (p : GstPromise) (o : Op)
    (h : p.result ≠ GstPromiseResult.pending) :
    (step (some p) o).1 = some p ∧
    Event.invokeHandler ∉ (step (some p) o).2 := by
  cases o with
  | reply s => exact reply_nonpending p s h
  | interrupt => exact interrupt_nonpending p h
  | expire =>
    rw [step, expire_nonpending p h]
    simp

theorem step_pending (p : GstPromise) (o : Op)
    (h : p.result = GstPromiseResult.pending) :
    ∃ q : GstPromise, (step (some p) o).1 = some q ∧
      q.result = winner o ∧ q.change_func = p.change_func ∧
      handlerCallsOf (step (some p) o).2 =
        (if p.change_func.isSome then 1 else 0) := by
  cases o with
  | reply s =>
    refine ⟨{ p with result := GstPromiseResult.replied, reply := s }, ?_, rfl, rfl, ?_⟩
    · simp [step, gst_promise_reply, h]
    · rcases hrep : p.reply with _ | r <;>
        rcases hcf : p.change_func with _ | f <;>
        simp [step, gst_promise_reply, h, hrep, hcf, handlerCallsOf,
          List.count_append, List.count_cons] <;>
        split <;> simp
  | interrupt =>
    refine ⟨{ p with result := GstPromiseResult.interrupted }, ?_, rfl, rfl, ?_⟩
    · simp [step, gst_promise_interrupt, h]
    · simp only [step, gst_promise_interrupt, h, handlerCallsOf]
      rcases p.change_func with _ | f <;>
        simp [List.count_append, List.count_cons]
  | expire =>
    refine ⟨{ p with result := GstPromiseResult.expired }, ?_, rfl, rfl, ?_⟩
    · simp [step, gst_promise_expire, h]
    · simp only [step, gst_promise_expire, h, handlerCallsOf]
      rcases p.change_func with _ | f <;>
        simp [List.count_append, List.count_cons]

theorem runOps_terminal (ops : List Op) (p : GstPromise)
    (h : p.result ≠ GstPromiseResult.pending) :
    runOps (some p) ops = some p ∧
    Event.invokeHandler ∉ runTrace (some p) ops := by
  induction ops with
  | nil => simp [runOps, runTrace]
  | cons o rest ih =>
    obtain ⟨h1, h2⟩ := step_terminal p o h
    constructor
    · rw [runOps, h1]
      exact ih.1
    · rw [runTrace, h1]
      simp only [List.mem_append]
      rintro (hc | hc)
      · exact h2 hc
      · exact ih.2 hc

theorem handlerCallsOf_append (a b : List Event) :
    handlerCallsOf (a ++ b) = handlerCallsOf a + handlerCallsOf b := by
  simp [handlerCallsOf, List.count_append]

theorem handlerCallsOf_of_not_mem (a : List Event)
    (h : Event.invokeHandler ∉ a) : handlerCallsOf a = 0 := by
  simp [handlerCallsOf, List.count_eq_zero.mpr h]

/-- Claim C1: for every promise and every sequence of reply, interrupt and
expire calls, the result leaves Pending at most once: the first transition
call made while the promise is Pending establishes the permanent terminal
state (`winner` of that call), and a promise already in a terminal state is
left unchanged by every further sequence of transition calls. -/
theorem claim_C1_result_monotonic (p q : GstPromise) (o : Op)
    (ops ops2 : List Op)
    (hp : p.result = GstPromiseResult.pending)
    (hq : q.result ≠ GstPromiseResult.pending) :
    gst_promise_get_result (runOps (some p) (o :: ops)) = winner o ∧
    runOps (some q) ops2 = some q := by
  obtain ⟨q1, hq1, hq2, _, _⟩ := step_pending p o hp
  constructor
  · have hterm : q1.result ≠ GstPromiseResult.pending := by
      rw [hq2]; exact winner_ne_pending o
    simp only [runOps, hq1]
    rw [(runOps_terminal ops q1 hterm).1]
    simpa [gst_promise_get_result] using hq2
  · exact (runOps_terminal ops2 q hq).1

/-- Witness for C1: a fresh promise interrupted first, with losing expire and
reply calls afterwards, and an expired promise untouched by reply and
interrupt. -/
theorem claim_C1_result_monotonic_witness :
    gst_promise_get_result (runOps (some gst_promise_new)
        (Op.interrupt :: [Op.expire, Op.reply (some 3)])) =
      winner Op.interrupt ∧
    runOps (some { gst_promise_new with result := GstPromiseResult.expired })
        [Op.reply none, Op.interrupt] =
      some { gst_promise_new with result := GstPromiseResult.expired } :=
  claim_C1_result_monotonic gst_promise_new
    { gst_promise_new with result := GstPromiseResult.expired }
    Op.interrupt [Op.expire, Op.reply (some 3)] [Op.reply none, Op.interrupt]
    (by decide) (by decide)

/-- Claim C2: with a change callback installed, a sequence of transition calls
that begins while the promise is Pending invokes the callback exactly once in
total (by the winning first call), and no sequence of losing or rejected calls
on an already-terminal promise ever invokes it. -/
theorem claim_C2_handler_exactly_once (p q : GstPromise) (f : Nat) (o : Op)
    (ops ops2 : List Op)
    (hp : p.result = GstPromiseResult.pending)
    (hf : p.change_func = some f)
    (hq : q.result ≠ GstPromiseResult.pending) :
    handlerCallsOf (runTrace (some p) (o :: ops)) = 1 ∧
    handlerCallsOf (runTrace (some q) ops2) = 0 := by
  obtain ⟨q1, hq1, hq2, _, hq4⟩ := step_pending p o hp
  constructor
  · have hterm : q1.result ≠ GstPromiseResult.pending := by
      rw [hq2]; exact winner_ne_pending o
    have h0 : handlerCallsOf (runTrace (some q1) ops) = 0 :=
      handlerCallsOf_of_not_mem _ (runOps_terminal ops q1 hterm).2
    simp only [runTrace, hq1]
    rw [handlerCallsOf_append, h0, hq4, hf]
    simp
  · exact handlerCallsOf_of_not_mem _ (runOps_terminal ops2 q hq).2

/-- Witness for C2: a fresh promise with a callback installed, expired first
with losing reply and interrupt calls afterwards, fires the callback once; a
replied promise sees no callback from reply, interrupt or expire. -/
theorem claim_C2_handler_exactly_once_witness :
    handlerCallsOf (runTrace (some { gst_promise_new with change_func := some 7 })
        (Op.expire :: [Op.reply none, Op.interrupt])) = 1 ∧
    handlerCallsOf (runTrace
        (some { gst_promise_new with result := GstPromiseResult.replied, change_func := some 7 })
        [Op.reply (some 1), Op.interrupt, Op.expire]) = 0 :=
  claim_C2_handler_exactly_once
    { gst_promise_new with change_func := some 7 }
    { gst_promise_new with result := GstPromiseResult.replied, change_func := some 7 }
    7 Op.expire [Op.reply none, Op.interrupt]
    [Op.reply (some 1), Op.interrupt, Op.expire]
    (by decide) (by decide) (by decide)

/-- Claim C3: wait on an already-terminal promise returns the stored result at
once, and in particular after create a winning reply, interrupt or expire makes
wait return Replied, Interrupted or Expired respectively. -/
theorem claim_C3_wait_terminal (p : GstPromise) (s : Option Nat)
    (hp : p.result ≠ GstPromiseResult.pending) :
    gst_promise_wait (some p) = some p.result ∧
    gst_promise_wait (gst_promise_reply (some gst_promise_new) s).1 =
      some GstPromiseResult.replied ∧
    gst_promise_wait (gst_promise_interrupt (some gst_promise_new)).1 =
      some GstPromiseResult.interrupted ∧
    gst_promise_wait (gst_promise_expire (some gst_promise_new)).1 =
      some GstPromiseResult.expired := by
  refine ⟨?_, rfl, rfl, rfl⟩
  simp [gst_promise_wait, hp]

/-- Witness for C3: an interrupted promise and the three create-then-resolve
scenarios, with a concrete payload for the reply. -/
theorem claim_C3_wait_terminal_witness :
    gst_promise_wait (some { gst_promise_new with
        result := GstPromiseResult.interrupted }) =
      some { gst_promise_new with
        result := GstPromiseResult.interrupted }.result ∧
    gst_promise_wait (gst_promise_reply (some gst_promise_new) (some 5)).1 =
      some GstPromiseResult.replied ∧
    gst_promise_wait (gst_promise_interrupt (some gst_promise_new)).1 =
      some GstPromiseResult.interrupted ∧
    gst_promise_wait (gst_promise_expire (some gst_promise_new)).1 =
      some GstPromiseResult.expired :=
  claim_C3_wait_terminal
    { gst_promise_new with result := GstPromiseResult.interrupted }
    (some 5) (by decide)

/-- Claim C4 evaluated on the code: `gst_promise_reply` with a NULL promise
returns at once without performing any `gst_structure_free`, so the supplied
payload is leaked rather than released. -/
theorem claim_C4_null_reply_frees_nothing :
    gst_promise_reply none (some 5) = (none, []) ∧
    freedOf (gst_promise_reply none (some 5)).2 = [] :=
  ⟨rfl, rfl⟩

/-- Claim C5 evaluated on the code: after create and reply(1), a second
reply(2) is rejected through `g_return_if_fail` with the result and the stored
payload unchanged, but no `gst_structure_free` is performed, so the supplied
payload 2 is leaked rather than released. -/
theorem claim_C5_second_reply_rejected_but_leaks :
    (gst_promise_reply
        (gst_promise_reply (some gst_promise_new) (some 1)).1 (some 2)).1 =
      (gst_promise_reply (some gst_promise_new) (some 1)).1 ∧
    warnedOf (gst_promise_reply
        (gst_promise_reply (some gst_promise_new) (some 1)).1 (some 2)).2 =
      true ∧
    freedOf (gst_promise_reply
        (gst_promise_reply (some gst_promise_new) (some 1)).1 (some 2)).2 =
      [] ∧
    gst_promise_wait (gst_promise_reply
        (gst_promise_reply (some gst_promise_new) (some 1)).1 (some 2)).1 =
      some GstPromiseResult.replied ∧
    gst_promise_get_reply (gst_promise_reply
        (gst_promise_reply (some gst_promise_new) (some 1)).1 (some 2)).1 =
      some 1 := by
  decide

/-- Claim C6: reply on an Interrupted promise (whose stored reply is NULL, as
after any reachable interrupt) is accepted without a diagnostic, leaves the
promise unchanged, frees the supplied payload immediately instead of storing
it, and does not invoke the change callback. -/
theorem claim_C6_reply_after_interrupt (p : GstPromise) (x : Nat)
    (hres : p.result = GstPromiseResult.interrupted)
    (hrep : p.reply = none) :
    (gst_promise_reply (some p) (some x)).1 = some p ∧
    freedOf (gst_promise_reply (some p) (some x)).2 = [x] ∧
    handlerCallsOf (gst_promise_reply (some p) (some x)).2 = 0 ∧
    warnedOf (gst_promise_reply (some p) (some x)).2 = false := by
  refine ⟨?_, ?_, ?_, ?_⟩ <;>
    simp [gst_promise_reply, hres, hrep, freedOf, handlerCallsOf, warnedOf]

/-- Witness for C6: an interrupted fresh promise replied to with payload 2. -/
theorem claim_C6_reply_after_interrupt_witness :
    (gst_promise_reply (some { gst_promise_new with
        result := GstPromiseResult.interrupted }) (some 2)).1 =
      some { gst_promise_new with result := GstPromiseResult.interrupted } ∧
    freedOf (gst_promise_reply (some { gst_promise_new with
        result := GstPromiseResult.interrupted }) (some 2)).2 = [2] ∧
    handlerCallsOf (gst_promise_reply (some { gst_promise_new with
        result := GstPromiseResult.interrupted }) (some 2)).2 = 0 ∧
    warnedOf (gst_promise_reply (some { gst_promise_new with
        result := GstPromiseResult.interrupted }) (some 2)).2 = false :=
  claim_C6_reply_after_interrupt
    { gst_promise_new with result := GstPromiseResult.interrupted } 2
    (by decide) (by decide)

/-- Claim C7: expire on any terminal promise is a pure no-op (lock and unlock
only), and for any promise a run of N+1 expire calls yields the same final
state as a single expire call with at most one change-callback invocation in
total. -/
theorem claim_C7_expire_idempotent (p q : GstPromise) (n : Nat)
    (hp : p.result ≠ GstPromiseResult.pending) :
    gst_promise_expire (some p) = (some p, [Event.lock, Event.unlock]) ∧
    runOps (some q) (List.replicate (n + 1) Op.expire) =
      runOps (some q) [Op.expire] ∧
    handlerCallsOf (runTrace (some q) (List.replicate (n + 1) Op.expire)) ≤ 1 := by
  refine ⟨expire_nonpending p hp, ?_, ?_⟩
  · by_cases hq : q.result = GstPromiseResult.pending
    · obtain ⟨q1, hq1, hq2, _, _⟩ := step_pending q Op.expire hq
      have hterm : q1.result ≠ GstPromiseResult.pending := by
        rw [hq2]; exact winner_ne_pending Op.expire
      rw [List.replicate_succ]
      simp only [runOps, hq1]
      rw [(runOps_terminal (List.replicate n Op.expire) q1 hterm).1]
    · have h1 := (step_terminal q Op.expire hq).1
      rw [List.replicate_succ]
      simp only [runOps, h1]
      rw [(runOps_terminal (List.replicate n Op.expire) q hq).1]
  · by_cases hq : q.result = GstPromiseResult.pending
    · obtain ⟨q1, hq1, hq2, _, hq4⟩ := step_pending q Op.expire hq
      have hterm : q1.result ≠ GstPromiseResult.pending := by
        rw [hq2]; exact winner_ne_pending Op.expire
      rw [List.replicate_succ]
      simp only [runTrace, hq1]
      rw [handlerCallsOf_append,
        handlerCallsOf_of_not_mem _ (runOps_terminal (List.replicate n Op.expire) q1 hterm).2,
        hq4]
      split <;> simp
    · rw [handlerCallsOf_of_not_mem _
        (runOps_terminal (List.replicate (n + 1) Op.expire) q hq).2]
      exact Nat.zero_le 1

/-- Witness for C7: an interrupted promise, and three expire calls on a fresh
promise with a callback installed. -/
theorem claim_C7_expire_idempotent_witness :
    gst_promise_expire (some { gst_promise_new with
        result := GstPromiseResult.interrupted }) =
      (some { gst_promise_new with result := GstPromiseResult.interrupted },
        [Event.lock, Event.unlock]) ∧
    runOps (some { gst_promise_new with change_func := some 7 })
        (List.replicate (2 + 1) Op.expire) =
      runOps (some { gst_promise_new with change_func := some 7 })
        [Op.expire] ∧
    handlerCallsOf (runTrace (some { gst_promise_new with change_func := some 7 })
        (List.replicate (2 + 1) Op.expire)) ≤ 1 :=
  claim_C7_expire_idempotent
    { gst_promise_new with result := GstPromiseResult.interrupted }
    { gst_promise_new with change_func := some 7 } 2 (by decide)

/-- Claim C8: set_change_callback stores the new (callback, context,
release-function) triple between taking and releasing the lock and invokes the
release-function of the previously installed handler on its context exactly
once, after the unlock; the newly installed release-function is not invoked by
the call, and with no previous release-function installed nothing is
invoked. -/
theorem claim_C8_swap_and_release_previous (p q : GstPromise)
    (func : Option Nat) (ud m n : Nat)
    (hprev : p.notify = some n) (hne : m ≠ n)
    (hqn : q.notify = none) :
    (gst_promise_set_change_callback (some p) func ud (some m)).1 =
      some { p with change_func := func, user_data := ud, notify := some m } ∧
    (gst_promise_set_change_callback (some p) func ud (some m)).2 =
      [Event.lock, Event.swapHandler, Event.unlock,
        Event.invokeNotify n p.user_data] ∧
    notifyCallsOf (gst_promise_set_change_callback (some p) func ud (some m)).2 =
      [(n, p.user_data)] ∧
    Event.invokeNotify m ud ∉
      (gst_promise_set_change_callback (some p) func ud (some m)).2 ∧
    notifyCallsOf (gst_promise_set_change_callback (some q) func ud (some m)).2 =
      [] := by
  refine ⟨?_, ?_, ?_, ?_, ?_⟩ <;>
    simp [gst_promise_set_change_callback, hprev, hqn, notifyCallsOf, hne]

/-- Witness for C8: replacing a handler triple (1, 9, 2) by (3, 4, 5) invokes
release-function 2 on context 9 only, and installing over an empty slot
invokes nothing. -/
theorem claim_C8_swap_and_release_previous_witness :
    (gst_promise_set_change_callback (some { gst_promise_new with
        change_func := some 1, user_data := 9, notify := some 2 })
        (some 3) 4 (some 5)).1 =
      some { { gst_promise_new with
          change_func := some 1, user_data := 9, notify := some 2 } with
        change_func := some 3, user_data := 4, notify := some 5 } ∧
    (gst_promise_set_change_callback (some { gst_promise_new with
        change_func := some 1, user_data := 9, notify := some 2 })
        (some 3) 4 (some 5)).2 =
      [Event.lock, Event.swapHandler, Event.unlock, Event.invokeNotify 2 9] ∧
    notifyCallsOf (gst_promise_set_change_callback (some { gst_promise_new with
        change_func := some 1, user_data := 9, notify := some 2 })
        (some 3) 4 (some 5)).2 = [(2, 9)] ∧
    Event.invokeNotify 5 4 ∉
      (gst_promise_set_change_callback (some { gst_promise_new with
          change_func := some 1, user_data := 9, notify := some 2 })
          (some 3) 4 (some 5)).2 ∧
    notifyCallsOf (gst_promise_set_change_callback (some gst_promise_new)
        (some 3) 4 (some 5)).2 = [] :=
  claim_C8_swap_and_release_previous
    { gst_promise_new with change_func := some 1, user_data := 9, notify := some 2 }
    gst_promise_new (some 3) 4 5 2 (by decide) (by decide) (by decide)

/-- Claim C9 (amended): when interrupt is called on a Pending promise with a
change callback installed, the steps occur in the order: take the lock, set
the result to Interrupted, broadcast the condition variable, invoke the change
handler, release the lock — the broadcast happens before the change-handler
invocation, not after it. -/
theorem claim_C9_interrupt_step_order (p : GstPromise) (f : Nat)
    (hp : p.result = GstPromiseResult.pending)
    (hf : p.change_func = some f) :
    (gst_promise_interrupt (some p)).2 =
      [Event.lock, Event.setResult GstPromiseResult.interrupted,
        Event.broadcast, Event.invokeHandler, Event.unlock] := by
  simp [gst_promise_interrupt, hp, hf]

/-- Witness for the amended C9: a fresh Pending promise with callback 1. -/
theorem claim_C9_interrupt_step_order_witness :
    (gst_promise_interrupt (some { gst_promise_new with
        change_func := some 1 })).2 =
      [Event.lock, Event.setResult GstPromiseResult.interrupted,
        Event.broadcast, Event.invokeHandler, Event.unlock] :=
  claim_C9_interrupt_step_order { gst_promise_new with change_func := some 1 }
    1 (by decide) (by decide)

/-- Claim C9 as stated is false on the code: on a concrete Pending promise
with a change callback installed, the interrupt trace broadcasts the condition
variable before invoking the change handler, not after it. -/
theorem claim_C9_counterexample :
    (gst_promise_interrupt
        (some ⟨GstPromiseResult.pending, none, some 1, 0, none⟩)).2 ≠
      [Event.lock, Event.setResult GstPromiseResult.interrupted,
        Event.invokeHandler, Event.broadcast, Event.unlock] ∧
    (gst_promise_interrupt
        (some ⟨GstPromiseResult.pending, none, some 1, 0, none⟩)).2 =
      [Event.lock, Event.setResult GstPromiseResult.interrupted,
        Event.broadcast, Event.invokeHandler, Event.unlock] := by
  decide

/-- Claim C10: every public operation tolerates a NULL promise: wait and
get_result return Expired, get_reply returns NULL, and interrupt, expire and
set_change_callback return (with only a diagnostic) without modifying any
state and without invoking any callback or release-function. -/
theorem claim_C10_null_tolerance (func : Option Nat) (ud : Nat)
    (ntf : Option Nat) :
    gst_promise_wait none = some GstPromiseResult.expired ∧
    gst_promise_get_result none = GstPromiseResult.expired ∧
    gst_promise_get_reply none = none ∧
    gst_promise_interrupt none = (none, [Event.warnReturn]) ∧
    handlerCallsOf (gst_promise_interrupt none).2 = 0 ∧
    gst_promise_expire none = (none, [Event.warnReturn]) ∧
    handlerCallsOf (gst_promise_expire none).2 = 0 ∧
    (gst_promise_set_change_callback none func ud ntf).1 = none ∧
    notifyCallsOf (gst_promise_set_change_callback none func ud ntf).2 = [] ∧
    handlerCallsOf (gst_promise_set_change_callback none func ud ntf).2 = 0 := by
  exact ⟨rfl, rfl, rfl, rfl, rfl, rfl, rfl, rfl, rfl, rfl⟩
